import Mathlib

/-!
Shallow embedding of the meeting-minutes backend core:

* `src/services/date_extractor.py` — filename date extraction
  (`DateExtractor.MONTHS`, `DateExtractor.PATTERNS`, `extract_date`,
  `_parse_match`, `_month_to_number`, `_format_date`).  Python's `re.search`
  is embedded by a small backtracking matcher specialised to the atoms the
  seven patterns use (leftmost match, greedy quantifiers with backtracking,
  exactly the semantics `re` gives these patterns; `re.IGNORECASE` only
  affects `[a-zA-Z]`, which already covers both cases).

* `src/services/gemini_service.py` — the tenacity retry decorator
  `@retry(stop=stop_after_attempt(3), wait=wait_exponential(multiplier=1,
  min=2, max=30), retry=retry_if_exception_type((TimeoutError,
  ConnectionError)))` applied to the three Gemini call bodies.  The unit of
  work is embedded as a function from the 1-based attempt number to an
  `Except` outcome; the loop follows tenacity's documented semantics
  (non-retryable exceptions re-raise immediately and unchanged; once
  `stop_after_attempt` is reached a `RetryError` wrapping the last
  exception is raised, since `reraise` defaults to `False`).
-/

namespace MMB

/-! ### Character classes (ASCII, as used by the seven patterns) -/

/-- Python regex `\d` restricted to ASCII digits (all that `re` matches on
these patterns for ordinary strings). -/
def isDigitCh (c : Char) : Bool := '0' ≤ c && c ≤ '9'

/-- Python regex `[a-zA-Z]`. -/
def isAlphaCh (c : Char) : Bool := ('a' ≤ c && c ≤ 'z') || ('A' ≤ c && c ≤ 'Z')

/-- Python regex `\s` (ASCII whitespace). -/
def wsChars : List Char := [' ', '\t', '\n', '\x0b', '\x0c', '\r']

def isWsCh (c : Char) : Bool := wsChars.contains c

/-! ### A tiny backtracking regex engine for the pattern atoms -/

/-- The atoms appearing in `DateExtractor.PATTERNS`:
`\d{lo,hi}`, `[a-zA-Z]+`, a one-char class, an optional one-char class,
`\s*` and `\s+` over a char class. -/
inductive Atom where
  | digitsRange (lo hi : Nat)
  | lettersPlus
  | oneOf (cs : List Char)
  | optOf (cs : List Char)
  | starOf (cs : List Char)
  | plusOf (cs : List Char)

/-- A pattern element: an atom, marked when it is a capturing group. -/
structure PatItem where
  atom : Atom
  capture : Bool

/-- Length of the maximal run of characters satisfying `p` at the head. -/
def countWhile (p : Char → Bool) : List Char → Nat
  | [] => 0
  | c :: t => if p c then countWhile p t + 1 else 0

/-- The `(consumed, rest)` splits an atom can produce at the head of `s`,
listed in the preference order of a greedy backtracking regex engine
(longest first), exactly as Python `re` tries them. -/
def atomChoices (a : Atom) (s : List Char) : List (List Char × List Char) :=
  match a with
  | .digitsRange lo hi =>
      let k := min hi (countWhile isDigitCh s)
      if k < lo then []
      else (List.range (k + 1 - lo)).map (fun j => (s.take (k - j), s.drop (k - j)))
  | .lettersPlus =>
      let k := countWhile isAlphaCh s
      if k = 0 then []
      else (List.range k).map (fun j => (s.take (k - j), s.drop (k - j)))
  | .oneOf cs =>
      match s with
      | c :: t => if cs.contains c then [([c], t)] else []
      | [] => []
  | .optOf cs =>
      match s with
      | c :: t => if cs.contains c then [([c], t), ([], c :: t)] else [([], c :: t)]
      | [] => [([], [])]
  | .starOf cs =>
      let k := countWhile (fun c => cs.contains c) s
      (List.range (k + 1)).map (fun j => (s.take (k - j), s.drop (k - j)))
  | .plusOf cs =>
      let k := countWhile (fun c => cs.contains c) s
      if k = 0 then []
      else (List.range k).map (fun j => (s.take (k - j), s.drop (k - j)))

/-- Match a list of pattern elements against a prefix of `s`, returning the
captured groups of the first match in backtracking order, or `none`. -/
def matchItems : List PatItem → List Char → Option (List String)
  | [], _ => some []
  | it :: rest, s =>
      (atomChoices it.atom s).findSome? fun pr =>
        (matchItems rest pr.2).map fun caps =>
          if it.capture then String.mk pr.1 :: caps else caps

/-- Python `re.search`: scan left to right, return the groups of the match at
the first position where one exists (`none` when the pattern occurs nowhere). -/
def searchFrom (p : List PatItem) : List Char → Option (List String)
  | [] => matchItems p []
  | c :: t =>
      match matchItems p (c :: t) with
      | some g => some g
      | none => searchFrom p t

/-! ### The seven patterns of `DateExtractor.PATTERNS` -/

def d4 : PatItem := ⟨.digitsRange 4 4, true⟩
def d2 : PatItem := ⟨.digitsRange 2 2, true⟩
def d12 : PatItem := ⟨.digitsRange 1 2, true⟩
def monthWord : PatItem := ⟨.lettersPlus, true⟩
def sepHU : PatItem := ⟨.oneOf ['-', '_'], false⟩
def sepDot : PatItem := ⟨.oneOf ['.'], false⟩
def optHU : PatItem := ⟨.optOf ['-', '_'], false⟩
def optHUC : PatItem := ⟨.optOf ['-', '_', ','], false⟩
def wsStar : PatItem := ⟨.starOf wsChars, false⟩
def wsPlus : PatItem := ⟨.plusOf wsChars, false⟩

/-- The `format_type` tags of `DateExtractor.PATTERNS`. -/
inductive Fmt where
  | ymd | ymdCompact | mdy | written | writtenReversed

/-- `(\d{4})[-_](\d{1,2})[-_](\d{1,2})` -/
def patIsoSep : List PatItem := [d4, sepHU, d12, sepHU, d12]

/-- `(\d{4})\.(\d{1,2})\.(\d{1,2})` -/
def patIsoDot : List PatItem := [d4, sepDot, d12, sepDot, d12]

/-- `(\d{1,2})[-_](\d{1,2})[-_](\d{4})` -/
def patUsSep : List PatItem := [d12, sepHU, d12, sepHU, d4]

/-- `(\d{1,2})\.(\d{1,2})\.(\d{4})` -/
def patUsDot : List PatItem := [d12, sepDot, d12, sepDot, d4]

/-- `(\d{4})(\d{2})(\d{2})` -/
def patCompact : List PatItem := [d4, d2, d2]

/-- `([a-zA-Z]+)\s*[-_]?\s*(\d{1,2})\s*[-_,]?\s*(\d{4})` -/
def patWritten : List PatItem :=
  [monthWord, wsStar, optHU, wsStar, d12, wsStar, optHUC, wsStar, d4]

/-- `(\d{1,2})\s+([a-zA-Z]+)\s+(\d{4})` -/
def patWrittenRev : List PatItem := [d12, wsPlus, monthWord, wsPlus, d4]

/-- `DateExtractor.PATTERNS`, in source order. -/
def PATTERNS : List (List PatItem × Fmt) :=
  [(patIsoSep, .ymd), (patIsoDot, .ymd), (patUsSep, .mdy), (patUsDot, .mdy),
   (patCompact, .ymdCompact), (patWritten, .written), (patWrittenRev, .writtenReversed)]

/-! ### Month table, `str.lower`/`str.strip`, `int` on digit groups -/

/-- `DateExtractor.MONTHS`. -/
def MONTHS : List (String × String) :=
  [("january", "01"), ("jan", "01"), ("february", "02"), ("feb", "02"),
   ("march", "03"), ("mar", "03"), ("april", "04"), ("apr", "04"),
   ("may", "05"), ("june", "06"), ("jun", "06"), ("july", "07"), ("jul", "07"),
   ("august", "08"), ("aug", "08"),
   ("september", "09"), ("sep", "09"), ("sept", "09"),
   ("october", "10"), ("oct", "10"), ("november", "11"), ("nov", "11"),
   ("december", "12"), ("dec", "12")]

/-- ASCII lower-casing of one character (`str.lower` on the `[a-zA-Z]+`
groups this is applied to). -/
def lowerCh (c : Char) : Char :=
  if 'A' ≤ c && c ≤ 'Z' then Char.ofNat (c.toNat + 32) else c

/-- Python `str.lower()` (ASCII; the argument is always a `[a-zA-Z]+` group). -/
def pyLower (s : String) : String := String.mk (s.data.map lowerCh)

/-- Python `str.strip()`: remove leading and trailing whitespace. -/
def pyStrip (s : String) : String :=
  String.mk (((s.data.dropWhile isWsCh).reverse.dropWhile isWsCh).reverse)

/-- `DateExtractor._month_to_number`: `MONTHS.get(month_name.lower().strip())`. -/
def monthToNumber (monthName : String) : Option String :=
  (MONTHS.find? (fun p => p.1 == pyStrip (pyLower monthName))).map Prod.snd

/-- Python `int()` on a decimal-digit string (the regex groups are always
digit-only, so no error case arises). -/
def natOfDigits (s : String) : Nat :=
  s.data.foldl (fun a c => a * 10 + (c.toNat - 48)) 0

/-! ### Calendar validation (`datetime(year, month, day)`) and `strftime` -/

def isLeapYear (y : Nat) : Bool :=
  y % 4 == 0 && (y % 100 != 0 || y % 400 == 0)

def daysInMonth (y m : Nat) : Nat :=
  if m == 2 then (if isLeapYear y then 29 else 28)
  else if m == 4 || m == 6 || m == 9 || m == 11 then 30
  else 31

/-- The triples accepted by Python `datetime(year, month, day)`:
proleptic Gregorian calendar, `MINYEAR = 1`, `MAXYEAR = 9999`. -/
def isValidDate (y m d : Nat) : Prop :=
  1 ≤ y ∧ y ≤ 9999 ∧ 1 ≤ m ∧ m ≤ 12 ∧ 1 ≤ d ∧ d ≤ daysInMonth y m

instance (y m d : Nat) : Decidable (isValidDate y m d) := by
  unfold isValidDate; infer_instance

/-- Exceptions the extractor's handlers mention (`except (ValueError,
IndexError)` in `extract_date`, `except ValueError` in `_format_date`). -/
inductive PyErr where
  | valueError
  | indexError
deriving DecidableEq

/-- `datetime(year, month, day)`: raises `ValueError` unless the triple is a
real calendar date in year range. -/
def datetimeCheck (y m d : Nat) : Except PyErr Unit :=
  if isValidDate y m d then .ok () else .error .valueError

def digitCh (n : Nat) : Char := Char.ofNat (48 + n % 10)

/-- `strftime` field `%m` / `%d`: two decimal digits, zero padded. -/
def pad2 (n : Nat) : List Char := [digitCh (n / 10), digitCh n]

/-- `strftime` field `%Y`: four decimal digits, zero padded (the argument is a
`datetime` year, hence at most 9999). -/
def pad4 (n : Nat) : List Char :=
  [digitCh (n / 1000), digitCh (n / 100), digitCh (n / 10), digitCh n]

/-- `date_obj.strftime('%Y-%m-%d')`. -/
def isoString (y m d : Nat) : String :=
  String.mk (pad4 y ++ '-' :: (pad2 m ++ '-' :: pad2 d))

/-- `DateExtractor._format_date` with its internal `try/except ValueError`
made explicit: construct the `datetime`, format it, turn a `ValueError` into
`None`, re-raise anything else. -/
def formatDateE (y m d : Nat) : Except PyErr (Option String) :=
  match datetimeCheck y m d with
  | .ok _ => .ok (some (isoString y m d))
  | .error .valueError => .ok none
  | .error e => .error e

/-- `DateExtractor._format_date`, exception-free form (its only exception
source, `datetime`, is caught inside the function). -/
def formatDate (y m d : Nat) : Option String :=
  if isValidDate y m d then some (isoString y m d) else none

/-! ### `_parse_match` and the `extract_date` pattern loop -/

/-- `DateExtractor._parse_match` (exception-free form): groups of a match plus
its `format_type` to an ISO date string, `None` when the month word is not in
the table or the candidate is not a real calendar date. -/
def parseMatch (groups : List String) : Fmt → Option String
  | .ymd =>
      match groups with
      | [y, m, d] => formatDate (natOfDigits y) (natOfDigits m) (natOfDigits d)
      | _ => none
  | .ymdCompact =>
      match groups with
      | [y, m, d] => formatDate (natOfDigits y) (natOfDigits m) (natOfDigits d)
      | _ => none
  | .mdy =>
      match groups with
      | [m, d, y] => formatDate (natOfDigits y) (natOfDigits m) (natOfDigits d)
      | _ => none
  | .written =>
      match groups with
      | [mn, d, y] =>
          match monthToNumber mn with
          | some ms => formatDate (natOfDigits y) (natOfDigits ms) (natOfDigits d)
          | none => none
      | _ => none
  | .writtenReversed =>
      match groups with
      | [d, mn, y] =>
          match monthToNumber mn with
          | some ms => formatDate (natOfDigits y) (natOfDigits ms) (natOfDigits d)
          | none => none
      | _ => none

/-- `DateExtractor._parse_match` with exceptions explicit: unpacking the
groups into three names raises `ValueError` when their number differs;
`_format_date` is the `formatDateE` above. -/
def parseMatchE (groups : List String) : Fmt → Except PyErr (Option String)
  | .ymd =>
      match groups with
      | [y, m, d] => formatDateE (natOfDigits y) (natOfDigits m) (natOfDigits d)
      | _ => .error .valueError
  | .ymdCompact =>
      match groups with
      | [y, m, d] => formatDateE (natOfDigits y) (natOfDigits m) (natOfDigits d)
      | _ => .error .valueError
  | .mdy =>
      match groups with
      | [m, d, y] => formatDateE (natOfDigits y) (natOfDigits m) (natOfDigits d)
      | _ => .error .valueError
  | .written =>
      match groups with
      | [mn, d, y] =>
          match monthToNumber mn with
          | some ms => formatDateE (natOfDigits y) (natOfDigits ms) (natOfDigits d)
          | none => .ok none
      | _ => .error .valueError
  | .writtenReversed =>
      match groups with
      | [d, mn, y] =>
          match monthToNumber mn with
          | some ms => formatDateE (natOfDigits y) (natOfDigits ms) (natOfDigits d)
          | none => .ok none
      | _ => .error .valueError

/-- The `for pattern, format_type in self.PATTERNS` loop of `extract_date`,
exception-free form: first pattern whose first occurrence parses to a date
wins; a pattern with no match, an unknown month word or an invalid calendar
date falls through to the next pattern. -/
def tryPatterns : List (List PatItem × Fmt) → List Char → Option String
  | [], _ => none
  | (p, f) :: rest, s =>
      match searchFrom p s with
      | none => tryPatterns rest s
      | some g =>
          match parseMatch g f with
          | some d => some d
          | none => tryPatterns rest s

/-- The same loop with the `try/except (ValueError, IndexError): continue`
of `extract_date` explicit: those two exception kinds fall through to the
next pattern, anything else would propagate. -/
def tryPatternsE : List (List PatItem × Fmt) → List Char → Except PyErr (Option String)
  | [], _ => .ok none
  | (p, f) :: rest, s =>
      match searchFrom p s with
      | none => tryPatternsE rest s
      | some g =>
          match parseMatchE g f with
          | .ok (some d) => .ok (some d)
          | .ok none => tryPatternsE rest s
          | .error e =>
              if e = .valueError ∨ e = .indexError then tryPatternsE rest s
              else .error e

/-- `DateExtractor.extract_date` (exception-free form).  `if not filename:
return None` is the emptiness test for a string argument. -/
def extract_date (filename : String) : Option String :=
  if filename = "" then none
  else tryPatterns PATTERNS filename.data

/-- `DateExtractor.extract_date` with exception propagation explicit. -/
def extract_dateE (filename : String) : Except PyErr (Option String) :=
  if filename = "" then .ok none
  else tryPatternsE PATTERNS filename.data

/-- Calling `extract_date` with Python `None` for `filename`: `not None` is
true, so the function returns `None` before touching any pattern. -/
def extractDateOptInput : Option String → Except PyErr (Option String)
  | none => .ok none
  | some s => extract_dateE s

/-! ### Spec-side extractor (spec section 4.1), for the refinement claim -/

/-- Spec steps 1 and 3: interpret the groups of a structural match as a
`(year, month, day)` candidate, resolving month names through the table and
discarding the match when the name is unrecognized. -/
def interpretGroups (groups : List String) : Fmt → Option (Nat × Nat × Nat)
  | .ymd =>
      match groups with
      | [y, m, d] => some (natOfDigits y, natOfDigits m, natOfDigits d)
      | _ => none
  | .ymdCompact =>
      match groups with
      | [y, m, d] => some (natOfDigits y, natOfDigits m, natOfDigits d)
      | _ => none
  | .mdy =>
      match groups with
      | [m, d, y] => some (natOfDigits y, natOfDigits m, natOfDigits d)
      | _ => none
  | .written =>
      match groups with
      | [mn, d, y] =>
          (monthToNumber mn).map fun ms => (natOfDigits y, natOfDigits ms, natOfDigits d)
      | _ => none
  | .writtenReversed =>
      match groups with
      | [d, mn, y] =>
          (monthToNumber mn).map fun ms => (natOfDigits y, natOfDigits ms, natOfDigits d)
      | _ => none

/-- Spec steps 2–5 for one pattern: the candidate its first occurrence yields,
kept only when calendar-valid, formatted zero padded. -/
def specCandidate (pf : List PatItem × Fmt) (s : List Char) : Option String :=
  match (searchFrom pf.1 s).bind (fun g => interpretGroups g pf.2) with
  | some (y, m, d) => if isValidDate y m d then some (isoString y m d) else none
  | none => none

/-- Spec section 4.1, steps 1–6, written from the spec's words: the first
pattern in the fixed priority order that both structurally matches and yields
a calendar-valid date wins; empty input yields absence. -/
def spec_extract (filename : String) : Option String :=
  if filename = "" then none
  else PATTERNS.findSome? (fun pf => specCandidate pf filename.data)

/-- `needle` occurs as a contiguous substring of `hay`. -/
def hasSub (needle hay : List Char) : Bool :=
  match hay with
  | [] => needle.isEmpty
  | _ :: t => List.isPrefixOf needle hay || hasSub needle t

/-! ### The tenacity retry wrapper of `gemini_service.py` -/

/-- Exceptions around the Gemini call bodies: the two kinds the decorator
retries, an opaque permanent API failure, and tenacity's `RetryError`
wrapping a last failure. -/
inductive PyExc where
  | timeoutError
  | connectionError
  | apiFailure (code : Nat)
  | retryError (last : PyExc)
deriving DecidableEq

/-- `retry_if_exception_type((TimeoutError, ConnectionError))`. -/
def isRetryable : PyExc → Bool
  | .timeoutError => true
  | .connectionError => true
  | _ => false

/-- tenacity `wait_exponential(multiplier, max, exp_base, min)` at attempt
number `n` (wait.py): `exp = exp_base ** (attempt_number - 1)`, result
`max(max(0, min), min(multiplier * exp, max))`. -/
def waitExponential (multiplier expBase mn mx n : Nat) : Nat :=
  max (max 0 mn) (min (multiplier * expBase ^ (n - 1)) mx)

/-- The decorator's wait policy, `wait_exponential(multiplier=1, min=2,
max=30)`, as a function of the just-failed attempt's number: the delays are
2, 2, 4, 8, …, capped at 30 (the 2-second floor masks the first doubling). -/
def waitFor (n : Nat) : Nat := waitExponential 1 2 2 30 n

deriving instance DecidableEq for Except

/-- Outcome of one run of the retry wrapper: the value returned or exception
raised, the number of times the unit of work was invoked, and the backoff
delays slept, in order. -/
structure RetryResult (α : Type) where
  result : Except PyExc α
  attempts : Nat
  waits : List Nat
deriving DecidableEq

/-- The tenacity retry loop.  `n` is the 1-based number of the attempt about
to run, `gas` the number of further attempts `stop_after_attempt` still
allows (so the stop condition `attempt_number >= maxAttempts` is `gas = 0`).
On success the value is returned at once.  On failure the retry predicate is
consulted first: a non-retryable exception re-raises unchanged; a retryable
one raises `RetryError(last_attempt)` when the stop condition holds (the
decorator leaves `reraise` at its `False` default), and otherwise the loop
sleeps `wait(attempt_number)` and runs the next attempt. -/
def retryAux (work : Nat → Except PyExc α) : Nat → Nat → List Nat → RetryResult α
  | 0, n, ws =>
      match work n with
      | .ok v => ⟨.ok v, n, ws.reverse⟩
      | .error e =>
          if isRetryable e then ⟨.error (.retryError e), n, ws.reverse⟩
          else ⟨.error e, n, ws.reverse⟩
  | gas + 1, n, ws =>
      match work n with
      | .ok v => ⟨.ok v, n, ws.reverse⟩
      | .error e =>
          if isRetryable e then retryAux work gas (n + 1) (waitFor n :: ws)
          else ⟨.error e, n, ws.reverse⟩

/-- `@retry(stop=stop_after_attempt(maxAttempts), ...)` applied to a unit of
work, starting at attempt 1 with no delays slept. -/
def retryWithMax (work : Nat → Except PyExc α) (maxAttempts : Nat) : RetryResult α :=
  retryAux work (maxAttempts - 1) 1 []

/-- The decorator as written on `transcribe_audio`, `refine_transcript` and
`generate_summary`: `stop_after_attempt(3)`. -/
def retryCall (work : Nat → Except PyExc α) : RetryResult α :=
  retryWithMax work 3

/-- The `except Exception as e: logger.error(...); raise` wrapper inside the
call bodies (`gemini_service.py` lines 125–127): logs, then re-raises the
same exception. -/
def reraiseWrap (work : Nat → Except PyExc α) : Nat → Except PyExc α :=
  fun n =>
    match work n with
    | .ok v => .ok v
    | .error e => .error e

/-! ### Concrete units of work used by witnesses and counterexamples -/

/-- Fails transiently on attempts 1 and 2, succeeds on attempt 3. -/
def workTransientTwice : Nat → Except PyExc String :=
  fun n => if n ≤ 2 then .error .timeoutError else .ok "transcript"

/-- Fails transiently on every attempt. -/
def workAlwaysTransient : Nat → Except PyExc String :=
  fun _ => .error .connectionError

/-- Fails permanently (a non-retryable API failure) on every attempt. -/
def workPermanent : Nat → Except PyExc String :=
  fun _ => .error (.apiFailure 401)

/-- Times out on every attempt (counterexample input for propagation). -/
def workAlwaysTimeout : Nat → Except PyExc String :=
  fun _ => .error .timeoutError

/-! ### Helper lemmas: the exception plumbing never escapes -/

theorem formatDateE_ok (y m d : Nat) : formatDateE y m d = .ok (formatDate y m d) := by
  by_cases h : isValidDate y m d <;>
    simp [formatDateE, formatDate, datetimeCheck, h]

theorem parseMatchE_written_ok (mn dd yy : String) :
    parseMatchE [mn, dd, yy] .written = .ok (parseMatch [mn, dd, yy] .written) := by
  cases hm : monthToNumber mn <;>
    simp [parseMatchE, parseMatch, hm, formatDateE_ok]

theorem parseMatchE_writtenRev_ok (dd mn yy : String) :
    parseMatchE [dd, mn, yy] .writtenReversed =
      .ok (parseMatch [dd, mn, yy] .writtenReversed) := by
  cases hm : monthToNumber mn <;>
    simp [parseMatchE, parseMatch, hm, formatDateE_ok]

theorem parseMatchE_cases (g : List String) (f : Fmt) :
    parseMatchE g f = .ok (parseMatch g f) ∨
      (parseMatchE g f = .error .valueError ∧ parseMatch g f = none) := by
  cases f <;> rcases g with _ | ⟨a, _ | ⟨b, _ | ⟨c, _ | ⟨e, t⟩⟩⟩⟩ <;>
    first
      | exact Or.inr ⟨rfl, rfl⟩
      | exact Or.inl (formatDateE_ok _ _ _)
      | exact Or.inl (parseMatchE_written_ok a b c)
      | exact Or.inl (parseMatchE_writtenRev_ok a b c)

theorem tryPatternsE_ok (pats : List (List PatItem × Fmt)) (s : List Char) :
    tryPatternsE pats s = .ok (tryPatterns pats s) := by
  induction pats with
  | nil => rfl
  | cons pf rest ih =>
      obtain ⟨p, f⟩ := pf
      rcases hs : searchFrom p s with _ | g
      · simp only [tryPatternsE, tryPatterns, hs]
        exact ih
      · rcases parseMatchE_cases g f with h | ⟨h1, h2⟩
        · simp only [tryPatternsE, tryPatterns, hs, h]
          cases hp : parseMatch g f <;> simp [hp, ih]
        · simp only [tryPatternsE, tryPatterns, hs, h1, h2]
          simp [ih]

theorem extract_dateE_ok (s : String) : extract_dateE s = .ok (extract_date s) := by
  unfold extract_dateE extract_date
  split
  · rfl
  · exact tryPatternsE_ok PATTERNS s.data

/-! ### Helper lemmas: shape of every returned date, refinement to the spec -/

theorem parseMatch_interp (g : List String) (f : Fmt) :
    parseMatch g f =
      match interpretGroups g f with
      | some (y, m, d) => if isValidDate y m d then some (isoString y m d) else none
      | none => none := by
  cases f <;> rcases g with _ | ⟨a, _ | ⟨b, _ | ⟨c, _ | ⟨e, t⟩⟩⟩⟩ <;>
    simp only [parseMatch, interpretGroups, formatDate] <;>
    first
      | rfl
      | (cases hm : monthToNumber a <;> simp [hm, formatDate])
      | (cases hm : monthToNumber b <;> simp [hm, formatDate])

theorem parseMatch_shape (g : List String) (f : Fmt) (r : String)
    (h : parseMatch g f = some r) :
    ∃ y m d, isValidDate y m d ∧ r = isoString y m d := by
  rw [parseMatch_interp] at h
  rcases hi : interpretGroups g f with _ | ⟨y, m, d⟩
  · simp [hi] at h
  · simp only [hi] at h
    by_cases hv : isValidDate y m d
    · rw [if_pos hv] at h
      exact ⟨y, m, d, hv, (Option.some.inj h).symm⟩
    · rw [if_neg hv] at h
      exact absurd h (by simp)

theorem tryPatterns_shape (pats : List (List PatItem × Fmt)) (s : List Char) (r : String)
    (h : tryPatterns pats s = some r) :
    ∃ y m d, isValidDate y m d ∧ r = isoString y m d := by
  induction pats with
  | nil => exact absurd h (by simp [tryPatterns])
  | cons pf rest ih =>
      obtain ⟨p, f⟩ := pf
      rcases hs : searchFrom p s with _ | g
      · simp only [tryPatterns, hs] at h
        exact ih h
      · simp only [tryPatterns, hs] at h
        rcases hp : parseMatch g f with _ | d
        · simp only [hp] at h
          exact ih h
        · simp only [hp] at h
          obtain ⟨y, m, dd, hv, he⟩ := parseMatch_shape g f d hp
          exact ⟨y, m, dd, hv, ((Option.some.inj h).symm).trans he⟩

theorem tryPatterns_eq_spec (pats : List (List PatItem × Fmt)) (s : List Char) :
    tryPatterns pats s = pats.findSome? (fun pf => specCandidate pf s) := by
  induction pats with
  | nil => rfl
  | cons pf rest ih =>
      obtain ⟨p, f⟩ := pf
      rcases hs : searchFrom p s with _ | g
      · have hc : specCandidate (p, f) s = none := by simp [specCandidate, hs]
        simp [tryPatterns, List.findSome?_cons, hs, hc, ih]
      · rcases hi : interpretGroups g f with _ | ⟨y, m, d⟩
        · have hc : specCandidate (p, f) s = none := by simp [specCandidate, hs, hi]
          simp [tryPatterns, List.findSome?_cons, hs, parseMatch_interp, hi, hc, ih]
        · by_cases hv : isValidDate y m d
          · have hc : specCandidate (p, f) s = some (isoString y m d) := by
              simp [specCandidate, hs, hi, hv]
            simp [tryPatterns, List.findSome?_cons, hs, parseMatch_interp, hi, hv, hc]
          · have hc : specCandidate (p, f) s = none := by
              simp [specCandidate, hs, hi, hv]
            simp [tryPatterns, List.findSome?_cons, hs, parseMatch_interp, hi, hv, hc, ih]

/-! ### Helper lemmas: one step of the retry loop -/

theorem retryAux_ok {α : Type} (work : Nat → Except PyExc α) (gas n : Nat)
    (ws : List Nat) (v : α) (h : work n = .ok v) :
    retryAux work gas n ws = ⟨.ok v, n, ws.reverse⟩ := by
  cases gas <;> (unfold retryAux; rw [h])

theorem retryAux_raise {α : Type} (work : Nat → Except PyExc α) (gas n : Nat)
    (ws : List Nat) (e : PyExc) (h : work n = .error e) (hr : isRetryable e = false) :
    retryAux work gas n ws = ⟨.error e, n, ws.reverse⟩ := by
  cases gas <;> (unfold retryAux; rw [h]; simp [hr])

theorem retryAux_exhaust {α : Type} (work : Nat → Except PyExc α) (n : Nat)
    (ws : List Nat) (e : PyExc) (h : work n = .error e) (hr : isRetryable e = true) :
    retryAux work 0 n ws = ⟨.error (.retryError e), n, ws.reverse⟩ := by
  unfold retryAux; rw [h]; simp [hr]

theorem retryAux_next {α : Type} (work : Nat → Except PyExc α) (gas n : Nat)
    (ws : List Nat) (e : PyExc) (h : work n = .error e) (hr : isRetryable e = true) :
    retryAux work (gas + 1) n ws = retryAux work gas (n + 1) (waitFor n :: ws) := by
  unfold retryAux; rw [h]; simp [hr]; cases gas <;> rfl

/-- Shared helper: the two retry transitions of `retryCall` starting from
attempt 1, spelled out for a unit of work failing transiently on attempt 1
(and then on attempt 2). -/
theorem retryCall_step1 {α : Type} (work : Nat → Except PyExc α) (e : PyExc)
    (h : work 1 = .error e) (hr : isRetryable e = true) :
    retryCall work = retryAux work 1 2 [waitFor 1] := by
  show retryAux work (1 + 1) 1 [] = _
  rw [retryAux_next work 1 1 [] e h hr]

theorem retryCall_step2 {α : Type} (work : Nat → Except PyExc α) (e : PyExc)
    (h : work 2 = .error e) (hr : isRetryable e = true) :
    retryAux work 1 2 [waitFor 1] = retryAux work 0 3 [waitFor 2, waitFor 1] := by
  show retryAux work (0 + 1) 2 [waitFor 1] = _
  rw [retryAux_next work 0 2 [waitFor 1] e h hr]

/-- Shared helper: when the first occurrence of the highest-priority pattern
(hyphen/underscore ISO) parses to a calendar-valid triple, `extract_date`
returns exactly that date. -/
theorem iso_first_wins (s : String) (ys ms ds : String)
    (hs : searchFrom patIsoSep s.data = some [ys, ms, ds])
    (hv : isValidDate (natOfDigits ys) (natOfDigits ms) (natOfDigits ds)) :
    extract_date s =
      some (isoString (natOfDigits ys) (natOfDigits ms) (natOfDigits ds)) := by
  have hne : s ≠ "" := by
    intro hemp
    subst hemp
    rw [show ("" : String).data = [] from rfl] at hs
    rw [show searchFrom patIsoSep [] = none from rfl] at hs
    exact Option.noConfusion hs
  unfold extract_date
  rw [if_neg hne]
  simp only [PATTERNS, tryPatterns, hs, parseMatch, formatDate, if_pos hv]

/-! ### Claims -/

/-- C1 counterexample: the filename `2023-02-30_2023-10-27_Meeting.mp3`
contains the calendar-valid `YYYY-MM-DD` substring `2023-10-27`, yet
`extract_date` returns no date at all: each pattern is only consulted at its
first occurrence, and the earlier calendar-invalid `2023-02-30` occupies the
ISO pattern's first occurrence. -/
theorem claim_C1_counterexample :
    hasSub ("2023-10-27").data ("2023-02-30_2023-10-27_Meeting.mp3").data = true ∧
    isValidDate 2023 10 27 ∧
    extract_date "2023-02-30_2023-10-27_Meeting.mp3" = none :=
  ⟨by decide, by decide, by decide⟩

/-- C1 (amended): for every filename whose first (leftmost) occurrence of the
hyphen/underscore ISO pattern `YYYY-MM-DD` is a calendar-valid date,
`extract_date` returns exactly that date formatted `YYYY-MM-DD`; an earlier
calendar-invalid occurrence of the pattern defeats this, because only each
pattern's first occurrence is consulted. -/
theorem claim_C1 (s : String) (ys ms ds : String)
    (hs : searchFrom patIsoSep s.data = some [ys, ms, ds])
    (hv : isValidDate (natOfDigits ys) (natOfDigits ms) (natOfDigits ds)) :
    extract_date s =
      some (isoString (natOfDigits ys) (natOfDigits ms) (natOfDigits ds)) :=
  iso_first_wins s ys ms ds hs hv

theorem claim_C1_witness :
    searchFrom patIsoSep ("2023-10-27_Meeting.mp3").data = some ["2023", "10", "27"] ∧
    isValidDate (natOfDigits "2023") (natOfDigits "10") (natOfDigits "27") ∧
    extract_date "2023-10-27_Meeting.mp3" =
      some (isoString (natOfDigits "2023") (natOfDigits "10") (natOfDigits "27")) :=
  ⟨by decide, by decide,
   claim_C1 "2023-10-27_Meeting.mp3" "2023" "10" "27" (by decide) (by decide)⟩

/-- C2: with the decorator's policy (3 attempts, transient = timeout and
connection errors): two transient failures then success return the success
value after exactly 3 invocations; transient failure on every attempt means
exactly 3 invocations and then a terminal error; a permanent failure means
exactly one invocation, the error raised immediately with no backoff wait. -/
theorem claim_C2 :
    (∀ (work : Nat → Except PyExc String) (v : String) (e1 e2 : PyExc),
        isRetryable e1 = true → isRetryable e2 = true →
        work 1 = .error e1 → work 2 = .error e2 → work 3 = .ok v →
        retryCall work = ⟨.ok v, 3, [waitFor 1, waitFor 2]⟩) ∧
    (∀ (work : Nat → Except PyExc String) (e1 e2 e3 : PyExc),
        isRetryable e1 = true → isRetryable e2 = true → isRetryable e3 = true →
        work 1 = .error e1 → work 2 = .error e2 → work 3 = .error e3 →
        retryCall work = ⟨.error (.retryError e3), 3, [waitFor 1, waitFor 2]⟩) ∧
    (∀ (work : Nat → Except PyExc String) (e : PyExc),
        isRetryable e = false → work 1 = .error e →
        retryCall work = ⟨.error e, 1, []⟩) := by
  refine ⟨?_, ?_, ?_⟩
  · intro work v e1 e2 hr1 hr2 h1 h2 h3
    rw [retryCall_step1 work e1 h1 hr1, retryCall_step2 work e2 h2 hr2,
        retryAux_ok work 0 3 [waitFor 2, waitFor 1] v h3]
    rfl
  · intro work e1 e2 e3 hr1 hr2 hr3 h1 h2 h3
    rw [retryCall_step1 work e1 h1 hr1, retryCall_step2 work e2 h2 hr2,
        retryAux_exhaust work 3 [waitFor 2, waitFor 1] e3 h3 hr3]
    rfl
  · intro work e hr h
    show retryAux work 2 1 [] = _
    rw [retryAux_raise work 2 1 [] e h hr]
    rfl

theorem claim_C2_witness :
    retryCall workTransientTwice = ⟨.ok "transcript", 3, [2, 2]⟩ ∧
    retryCall workAlwaysTransient = ⟨.error (.retryError .connectionError), 3, [2, 2]⟩ ∧
    retryCall workPermanent = ⟨.error (.apiFailure 401), 1, []⟩ :=
  ⟨claim_C2.1 workTransientTwice "transcript" .timeoutError .timeoutError
      rfl rfl rfl rfl rfl,
   claim_C2.2.1 workAlwaysTransient .connectionError .connectionError .connectionError
      rfl rfl rfl rfl rfl rfl,
   claim_C2.2.2 workPermanent (.apiFailure 401) rfl rfl⟩

/-- C3 counterexample: for a unit of work that times out on every attempt,
the exception delivered after exhausting the 3 attempts is tenacity's
`RetryError` wrapping the timeout, not the underlying timeout itself — so the
error is not delivered unchanged in the exhaustion case. -/
theorem claim_C3_counterexample :
    (retryCall workAlwaysTimeout).result = .error (.retryError .timeoutError) ∧
    (retryCall workAlwaysTimeout).result ≠ .error .timeoutError :=
  ⟨by decide, by decide⟩

/-- C3 (amended): a permanent (non-retryable) failure is delivered to the
caller unchanged, and the body's `except/raise` re-raises unchanged; but when
all 3 attempts fail transiently, the wrapper raises a terminal `RetryError`
wrapping the last underlying error rather than that error itself (the
decorator leaves tenacity's `reraise` at `False`). -/
theorem claim_C3 :
    (∀ (work : Nat → Except PyExc String) (e : PyExc),
        isRetryable e = false → work 1 = .error e →
        (retryCall work).result = .error e) ∧
    (∀ (work : Nat → Except PyExc String) (e1 e2 e3 : PyExc),
        isRetryable e1 = true → isRetryable e2 = true → isRetryable e3 = true →
        work 1 = .error e1 → work 2 = .error e2 → work 3 = .error e3 →
        (retryCall work).result = .error (.retryError e3)) ∧
    (∀ (work : Nat → Except PyExc String) (n : Nat), reraiseWrap work n = work n) := by
  refine ⟨?_, ?_, ?_⟩
  · intro work e hr h
    show (retryAux work 2 1 []).result = _
    rw [retryAux_raise work 2 1 [] e h hr]
  · intro work e1 e2 e3 hr1 hr2 hr3 h1 h2 h3
    rw [retryCall_step1 work e1 h1 hr1, retryCall_step2 work e2 h2 hr2,
        retryAux_exhaust work 3 [waitFor 2, waitFor 1] e3 h3 hr3]
  · intro work n
    cases h : work n <;> simp [reraiseWrap, h]

theorem claim_C3_witness :
    (retryCall workPermanent).result = .error (.apiFailure 401) ∧
    (retryCall workAlwaysTransient).result = .error (.retryError .connectionError) ∧
    reraiseWrap workPermanent 1 = workPermanent 1 :=
  ⟨claim_C3.1 workPermanent (.apiFailure 401) rfl rfl,
   claim_C3.2.1 workAlwaysTransient .connectionError .connectionError .connectionError
      rfl rfl rfl rfl rfl rfl,
   claim_C3.2.2 workPermanent 1⟩

/-- C4 counterexample: `2023-02-30_10-27-2023_2023-12-25.mp3` contains both a
calendar-valid ISO date substring (`2023-12-25`) and a calendar-valid US date
substring (`10-27-2023`), yet `extract_date` returns the US interpretation
`2023-10-27`: the ISO pattern's first occurrence is the invalid `2023-02-30`,
so the valid ISO date is never consulted and the US pattern wins. -/
theorem claim_C4_counterexample :
    hasSub ("2023-12-25").data ("2023-02-30_10-27-2023_2023-12-25.mp3").data = true ∧
    isValidDate 2023 12 25 ∧
    hasSub ("10-27-2023").data ("2023-02-30_10-27-2023_2023-12-25.mp3").data = true ∧
    isValidDate 2023 10 27 ∧
    extract_date "2023-02-30_10-27-2023_2023-12-25.mp3" = some "2023-10-27" ∧
    extract_date "2023-02-30_10-27-2023_2023-12-25.mp3" ≠ some "2023-12-25" :=
  ⟨by decide, by decide, by decide, by decide, by decide, by decide⟩

/-- C4 (amended): `extract_date` agrees on every filename with the spec's
rule `the earliest pattern in the fixed order whose first occurrence both
structurally matches and yields a calendar-valid date wins`; in particular
the ISO interpretation beats any US match whenever the ISO pattern's first
occurrence is itself the calendar-valid date.  A filename merely containing
valid ISO and US date substrings can return the US interpretation when an
earlier invalid ISO occurrence shadows the valid one. -/
theorem claim_C4 :
    (∀ s : String, extract_date s = spec_extract s) ∧
    (∀ (s : String) (ys ms ds : String) (gus : List String),
        searchFrom patIsoSep s.data = some [ys, ms, ds] →
        isValidDate (natOfDigits ys) (natOfDigits ms) (natOfDigits ds) →
        searchFrom patUsSep s.data = some gus →
        extract_date s =
          some (isoString (natOfDigits ys) (natOfDigits ms) (natOfDigits ds))) := by
  constructor
  · intro s
    unfold extract_date spec_extract
    split
    · rfl
    · exact tryPatterns_eq_spec PATTERNS s.data
  · intro s ys ms ds gus hs hv _
    exact iso_first_wins s ys ms ds hs hv

theorem claim_C4_witness :
    extract_date "Meeting_10-27-2023.mp3" = spec_extract "Meeting_10-27-2023.mp3" ∧
    extract_date "2023-10-27_10-27-2023.mp3" =
      some (isoString (natOfDigits "2023") (natOfDigits "10") (natOfDigits "27")) :=
  ⟨claim_C4.1 "Meeting_10-27-2023.mp3",
   claim_C4.2 "2023-10-27_10-27-2023.mp3" "2023" "10" "27" ["10", "27", "2023"]
      (by decide) (by decide) (by decide)⟩

/-- C5: a pattern whose first occurrence parses to no date — unknown month
word or calendar-invalid triple — is silently discarded: the loop's result on
that pattern plus the remaining patterns equals its result on the remaining
patterns alone, in both the exception-free and the exception-explicit loop
(so the discarded candidate is never returned and never surfaces an error). -/
theorem claim_C5 (p : List PatItem) (f : Fmt) (rest : List (List PatItem × Fmt))
    (s : List Char) (g : List String)
    (hs : searchFrom p s = some g) (hp : parseMatch g f = none) :
    tryPatterns ((p, f) :: rest) s = tryPatterns rest s ∧
    tryPatternsE ((p, f) :: rest) s = tryPatternsE rest s := by
  constructor
  · simp only [tryPatterns, hs, hp]
  · rcases parseMatchE_cases g f with h | ⟨h1, h2⟩
    · simp only [tryPatternsE, hs, h, hp]
    · simp only [tryPatternsE, hs, h1]
      simp

theorem claim_C5_witness :
    tryPatterns ((patIsoSep, Fmt.ymd) :: PATTERNS.tail) ("2023-02-30.mp3").data =
      tryPatterns PATTERNS.tail ("2023-02-30.mp3").data ∧
    tryPatternsE ((patIsoSep, Fmt.ymd) :: PATTERNS.tail) ("2023-02-30.mp3").data =
      tryPatternsE PATTERNS.tail ("2023-02-30.mp3").data :=
  claim_C5 patIsoSep Fmt.ymd PATTERNS.tail ("2023-02-30.mp3").data
    ["2023", "02", "30"] (by decide) (by decide)

/-- C6: the five end-to-end examples of the spec hold. -/
theorem claim_C6 :
    extract_date "2023-10-27_Meeting.mp3" = some "2023-10-27" ∧
    extract_date "October 27 2023 meeting.m4a" = some "2023-10-27" ∧
    extract_date "27 October 2023 standup.mp3" = some "2023-10-27" ∧
    extract_date "random_file.mp3" = none ∧
    extract_date "20231027_call.wav" = some "2023-10-27" :=
  ⟨by decide, by decide, by decide, by decide, by decide⟩

/-- C7: `extract_date` is total — on every string the exception-explicit
embedding returns normally (the `except` handlers catch everything its body
can raise), the empty string yields absence, and a Python `None` argument
yields absence, never an error. -/
theorem claim_C7 :
    (∀ s : String, extract_dateE s = .ok (extract_date s)) ∧
    extract_dateE "" = .ok none ∧
    extract_date "" = none ∧
    extractDateOptInput none = .ok none :=
  ⟨extract_dateE_ok, rfl, rfl, rfl⟩

/-- C8: every date `extract_date` returns is the zero-padded rendering
`YYYY-MM-DD` of a calendar-valid triple — the month and day fields are always
exactly two digits and the year four, also when the matched substring carries
single-digit values (`Oct 5 2023`, `2023-1-5`). -/
theorem claim_C8 :
    (∀ s r : String, extract_date s = some r →
        ∃ y m d, isValidDate y m d ∧ r = isoString y m d) ∧
    (∀ y m d : Nat, (isoString y m d).length = 10 ∧
        (pad2 m).length = 2 ∧ (pad2 d).length = 2 ∧ (pad4 y).length = 4) ∧
    extract_date "Oct 5 2023.m4a" = some "2023-10-05" ∧
    extract_date "2023-1-5_Meeting.mp3" = some "2023-01-05" := by
  refine ⟨?_, ?_, by decide, by decide⟩
  · intro s r h
    unfold extract_date at h
    split at h
    · exact absurd h (by simp)
    · exact tryPatterns_shape PATTERNS s.data r h
  · intro y m d
    exact ⟨rfl, rfl, rfl, rfl⟩

theorem claim_C8_witness :
    (∃ y m d, isValidDate y m d ∧ "2023-10-05" = isoString y m d) ∧
    (isoString 2023 1 5).length = 10 :=
  ⟨claim_C8.1 "Oct 5 2023.m4a" "2023-10-05" (by decide),
   (claim_C8.2.1 2023 1 5).1⟩

/-- C9 counterexample: the spec's formula `min(30, 2 * 2 ^ (attempt - 1))`
(base 2 s) predicts a 4-second delay after the second failed attempt, but
`wait_exponential(multiplier=1, min=2, max=30)` computes
`max(2, min(2 ^ (2 - 1), 30)) = 2`: a wrapper whose work fails transiently
throughout sleeps 2 s twice, not 2 s then 4 s. -/
theorem claim_C9_counterexample :
    waitFor 2 = 2 ∧
    min 30 (2 * 2 ^ (2 - 1)) = 4 ∧
    waitFor 2 ≠ min 30 (2 * 2 ^ (2 - 1)) ∧
    (retryCall workAlwaysTransient).waits = [2, 2] :=
  ⟨by decide, by decide, by decide, by decide⟩

/-- C9 (amended): the backoff delay after the n-th failed attempt is
`max(2, min(2 ^ (n - 1), 30))` seconds — the first delay is 2 s, and from
the second failed attempt on it equals `min(30, 2 * 2 ^ (n - 2))`, one
doubling later than the spec's `min(30, 2 * 2 ^ (n - 1))` because the
2-second floor masks the first doubling.  Every delay lies within [0, 30],
the delays are non-decreasing in the attempt number, and the delays one run
of the wrapper actually sleeps are exactly those of attempts 1, 2, … in
order. -/
theorem claim_C9 :
    (∀ n : Nat, 1 ≤ n → waitFor n = max 2 (min (2 ^ (n - 1)) 30)) ∧
    (∀ n : Nat, 2 ≤ n → waitFor n = min 30 (2 * 2 ^ (n - 2))) ∧
    (∀ n : Nat, waitFor n ≤ 30) ∧
    (∀ a b : Nat, a ≤ b → waitFor a ≤ waitFor b) ∧
    (∀ work : Nat → Except PyExc String,
        (retryCall work).waits =
          (List.range ((retryCall work).attempts - 1)).map (fun i => waitFor (1 + i))) := by
  refine ⟨?_, ?_, ?_, ?_, ?_⟩
  · intro n _
    unfold waitFor waitExponential
    simp only [one_mul]
    omega
  · intro n hn
    obtain ⟨m, rfl⟩ : ∃ m, n = m + 2 := ⟨n - 2, by omega⟩
    have h2 : (2 : Nat) ^ (m + 2 - 1) = 2 * 2 ^ m := by
      rw [show m + 2 - 1 = m + 1 from rfl, pow_succ]; ring
    have h1 : 0 < (2 : Nat) ^ m := pow_pos (by omega) m
    unfold waitFor waitExponential
    rw [h2]
    simp only [Nat.add_sub_cancel, one_mul]
    omega
  · intro n
    unfold waitFor waitExponential
    simp only [one_mul]
    omega
  · intro a b hab
    have hpow : (2 : Nat) ^ (a - 1) ≤ 2 ^ (b - 1) :=
      Nat.pow_le_pow_right (by omega) (by omega)
    unfold waitFor waitExponential
    simp only [one_mul]
    omega
  · intro work
    rcases h1 : work 1 with e1 | v
    case ok =>
        rw [show retryCall work = retryAux work 2 1 [] from rfl,
          retryAux_ok work 2 1 [] v h1]
        rfl
    case error =>
      cases hr1 : isRetryable e1
      · rw [show retryCall work = retryAux work 2 1 [] from rfl,
            retryAux_raise work 2 1 [] e1 h1 hr1]
        rfl
      · rw [retryCall_step1 work e1 h1 hr1]
        rcases h2 : work 2 with e2 | v
        case ok =>
            rw [retryAux_ok work 1 2 [waitFor 1] v h2]
            rfl
        case error =>
          cases hr2 : isRetryable e2
          · rw [retryAux_raise work 1 2 [waitFor 1] e2 h2 hr2]
            rfl
          · rw [retryCall_step2 work e2 h2 hr2]
            rcases h3 : work 3 with e3 | v
            case ok =>
                rw [retryAux_ok work 0 3 [waitFor 2, waitFor 1] v h3]
                rfl
            case error =>
              cases hr3 : isRetryable e3
              · rw [retryAux_raise work 0 3 [waitFor 2, waitFor 1] e3 h3 hr3]
                rfl
              · rw [retryAux_exhaust work 3 [waitFor 2, waitFor 1] e3 h3 hr3]
                rfl

theorem claim_C9_witness :
    waitFor 1 = max 2 (min (2 ^ (1 - 1)) 30) ∧
    waitFor 3 = min 30 (2 * 2 ^ (3 - 2)) ∧
    waitFor 5 ≤ 30 ∧
    waitFor 1 ≤ waitFor 4 ∧
    (retryCall workTransientTwice).waits =
      (List.range ((retryCall workTransientTwice).attempts - 1)).map
        (fun i => waitFor (1 + i)) :=
  ⟨claim_C9.1 1 (by decide), claim_C9.2.1 3 (by decide), claim_C9.2.2.1 5,
   claim_C9.2.2.2.1 1 4 (by decide), claim_C9.2.2.2.2 workTransientTwice⟩

/-- C10: on `MeetingOctober 27 2023.mp3` the written-month pattern's first
occurrence greedily takes the whole letter run `MeetingOctober` as the month
word, the month table lookup fails, and — because only the first occurrence
of each pattern is consulted — `extract_date` returns absence. -/
theorem claim_C10 :
    searchFrom patWritten ("MeetingOctober 27 2023.mp3").data =
      some ["MeetingOctober", "27", "2023"] ∧
    monthToNumber "MeetingOctober" = none ∧
    extract_date "MeetingOctober 27 2023.mp3" = none :=
  ⟨by decide, by decide, by decide⟩

end MMB
